import Mathlib

/-!
Shallow embedding of `src/dashboard_new.py`: a Streamlit dashboard whose only
logic is three retry-with-delay fetch wrappers around the yfinance provider,
an hour-long cache, derived-indicator computation and metric formatting.

Provider behaviour is modelled as a function from the attempt number to an
`Except`: `Except.error e` stands for a raised exception during that attempt
(network error, malformed response, missing field), `Except.ok` for the data
the provider calls of that attempt returned.  Each fetch function also returns
the trace of observable events it performed (provider calls, warnings, sleeps,
final error message), so that delay counts and call counts can be stated.
-/

namespace Dash

/-- One row of the yfinance history frame (OHLCV), numeric values as ℚ. -/
structure Row where
  Open : ℚ
  High : ℚ
  Low : ℚ
  Close : ℚ
  Volume : ℚ
deriving DecidableEq

/-- Arithmetic mean of a list of rationals (pandas `mean`). -/
def mean (xs : List ℚ) : ℚ := xs.sum / (xs.length : ℚ)

/-- Sample variance with `ddof = 1` (the pandas default for `std`). -/
def sampleVar (xs : List ℚ) : ℚ :=
  (xs.map (fun x => (x - mean xs) ^ 2)).sum / ((xs.length : ℚ) - 1)

/-- Sample standard deviation (pandas `std`): square root of `sampleVar`. -/
noncomputable def sampleStd (xs : List ℚ) : ℝ :=
  Real.sqrt ((sampleVar xs : ℚ) : ℝ)

/-- The trailing window of length 20 ending at index `i` (inclusive), as used
by `rolling(window=20)` at row `i`. -/
def windowAt (closes : List ℚ) (i : Nat) : List ℚ :=
  (closes.take (i + 1)).drop (i + 1 - 20)

/-- The value at row `i` of `Close.ewm(span=20, adjust=False).mean()`:
`e 0 = c 0`, `e (i+1) = a * c (i+1) + (1 - a) * e i` with `a = 2 / (span + 1)`. -/
def emaVal (a : ℚ) (closes : List ℚ) : Nat → ℚ
  | 0 => closes.getD 0 0
  | i + 1 => a * closes.getD (i + 1) 0 + (1 - a) * emaVal a closes i

/-- A row of the frame returned by `fetch_index_data_safe`: the raw OHLCV row
plus the three derived columns.  `none` models a pandas NaN entry. -/
structure IndexRow where
  base : Row
  SMA_20 : Option ℚ
  EMA_20 : Option ℚ
  Volatility : Option ℝ

/-- The three derived-column assignments of `fetch_index_data_safe`
(dashboard_new.py lines 16-18): `SMA_20` is `rolling(20).mean()` (NaN while
fewer than 20 observations), `EMA_20` is `ewm(span=20, adjust=False).mean()`,
`Volatility` is `rolling(20).std()` (NaN while fewer than 20 observations). -/
noncomputable def deriveIndex (hist : List Row) : List IndexRow :=
  let closes := hist.map Row.Close
  (List.range hist.length).map (fun i =>
    { base := hist.getD i ⟨0, 0, 0, 0, 0⟩
      SMA_20 := if 20 ≤ i + 1 then some (mean (windowAt closes i)) else none
      EMA_20 := some (emaVal (2 / 21) closes i)
      Volatility := if 20 ≤ i + 1 then some (sampleStd (windowAt closes i)) else none })

/-- Observable events of one run of a fetch function. -/
inductive Ev where
  | providerCall : Nat → Ev
  | warn : String → Ev
  | sleep : Nat → Ev
  | errorShown : String → Ev
deriving DecidableEq

/-- Whether an event is a 60-second delay (`time.sleep(60)`). -/
def is60Sleep : Ev → Bool
  | Ev.sleep n => n == 60
  | _ => false

/-- Number of 60-second delays in a trace. -/
def sleepCount (es : List Ev) : Nat := es.countP is60Sleep

/-- Whether an `Except` is an error (a raised exception in the model). -/
def isErr {α : Type} : Except String α → Bool
  | .error _ => true
  | .ok _ => false

/-- The common retry skeleton of the three fetch functions
(`for attempt in range(5): try: ... return ... except: warn; sleep(60)`
followed by an error message and a sentinel return).  `attempt i` is the body
of the `try` for attempt number `i`; on success its value is post-processed by
`onOk` and returned; on failure a warning and a 60-second sleep are recorded
and the next attempt runs; once `r` attempts are exhausted the sentinel `emp`
is returned.  The second component is the event trace. -/
def retryFrom {α β : Type} (attempt : Nat → Except String α) (onOk : α → β)
    (emp : β) (warnOf : String → String) (finalMsg : String) :
    Nat → Nat → β × List Ev
  | _, 0 => (emp, [Ev.errorShown finalMsg])
  | i, r + 1 =>
    match attempt i with
    | .ok a => (onOk a, [Ev.providerCall i])
    | .error e =>
      let rest := retryFrom attempt onOk emp warnOf finalMsg (i + 1) r
      (rest.1, Ev.providerCall i :: Ev.warn (warnOf e) :: Ev.sleep 60 :: rest.2)

/-- Embedding of `fetch_index_data_safe` (dashboard_new.py lines 10-24):
up to 5 attempts; a successful attempt returns the 1-year history enriched
with the three derived columns; a failed attempt warns and sleeps 60 seconds;
exhaustion shows an error and returns an empty frame. -/
noncomputable def fetch_index_data_safe (ticker : String)
    (b : Nat → Except String (List Row)) : List IndexRow × List Ev :=
  retryFrom b deriveIndex []
    (fun e => "Error fetching " ++ ticker ++ ": " ++ e ++ ". Retrying in 60 seconds...")
    ("Could not fetch data for " ++ ticker ++ " after multiple attempts.") 0 5

/-- The `stock.info` mapping restricted to the fields the code reads; `none`
models an absent key. -/
structure Info where
  trailingPE : Option ℚ
  dividendYield : Option ℚ
  beta : Option ℚ
  marketCap : Option ℚ
deriving DecidableEq

/-- A metric value: a number from the provider or a string (the sentinel
`'N/A'` or a formatted percentage). -/
inductive MetricVal where
  | num : ℚ → MetricVal
  | str : String → MetricVal
deriving DecidableEq

/-- Round-half-to-even of a rational to an integer, the rounding used by
Python `format` of a float value that is an exact half; on non-halves it is
ordinary rounding. -/
def rhe (q : ℚ) : ℤ :=
  if q - ⌊q⌋ < 1 / 2 then ⌊q⌋
  else if 1 / 2 < q - ⌊q⌋ then ⌊q⌋ + 1
  else if ⌊q⌋ % 2 = 0 then ⌊q⌋ else ⌊q⌋ + 1

/-- Two-digit zero-padded rendering of a remainder below 100. -/
def pad2 (r : Nat) : String := (if r < 10 then "0" else "") ++ toString r

/-- Embedding of the Python format specifier `:.2f`: fixed-point rendering
with exactly two digits after the point.  The source formats an IEEE double;
the model renders the exact rational with round-half-to-even. -/
def formatTwoDec (q : ℚ) : String :=
  let h := rhe (q * 100)
  let s := toString (h.natAbs / 100) ++ "." ++ pad2 (h.natAbs % 100)
  if h < 0 then "-" ++ s else s

/-- The dividend-yield entry (dashboard_new.py line 36):
`f"{info.get('dividendYield', 0)*100:.2f}%" if info.get('dividendYield') else 'N/A'`.
The Python condition is truthiness: an absent key (`None`) and a zero value
are both falsy. -/
def dividendYieldStr (dy : Option ℚ) : String :=
  if dy.getD 0 ≠ 0 then formatTwoDec (dy.getD 0 * 100) ++ "%" else "N/A"

/-- A numeric field, or the string sentinel when the provider omitted it
(`info.get(key, 'N/A')`). -/
def naOr (v : Option ℚ) : MetricVal :=
  match v with
  | some q => MetricVal.num q
  | none => MetricVal.str "N/A"

/-- The metrics mapping built by a successful attempt of
`fetch_stock_data_safe` (dashboard_new.py lines 34-39), in insertion order. -/
def mkMetrics (info : Info) : List (String × MetricVal) :=
  [("PE Ratio", naOr info.trailingPE),
   ("Dividend Yield", MetricVal.str (dividendYieldStr info.dividendYield)),
   ("Beta", naOr info.beta),
   ("Market Cap", naOr info.marketCap)]

/-- First value stored under a key of a metrics mapping (`metrics.get(k)`). -/
def getMetric (m : List (String × MetricVal)) (k : String) : Option MetricVal :=
  match m with
  | [] => none
  | (k2, v) :: rest => if k = k2 then some v else getMetric rest k

/-- Embedding of `fetch_stock_data_safe` (dashboard_new.py lines 27-45): each
attempt fetches the 1-year history and the info mapping together (a failure of
either is a failed attempt); success returns the raw history plus the metrics
mapping; exhaustion returns an empty frame and an empty mapping. -/
def fetch_stock_data_safe (ticker : String)
    (b : Nat → Except String (List Row × Info)) :
    (List Row × List (String × MetricVal)) × List Ev :=
  retryFrom b (fun p => (p.1, mkMetrics p.2)) ([], [])
    (fun e => "Error fetching " ++ ticker ++ ": " ++ e ++ ". Retrying in 60 seconds...")
    ("Could not fetch data for " ++ ticker ++ " after multiple attempts.") 0 5

/-- A financial-statement table as yfinance returns it: row labels are line
items, column labels are reporting periods, `rows` holds each line item's
values across the periods. -/
structure FinTable where
  periods : List String
  rows : List (String × List ℚ)
deriving DecidableEq

/-- The two statement tables one attempt of `metrics_table_safe` fetches. -/
structure FinData where
  financials : FinTable
  balance_sheet : FinTable
deriving DecidableEq

/-- The final snapshot (after the closing `.T`): rows are the selected line
items, columns are the reporting periods of the balance sheet; `none` models
a NaN introduced by the join for a period the income statement lacks. -/
structure Snapshot where
  periods : List String
  items : List (String × List (Option ℚ))
deriving DecidableEq

/-- The balance-sheet line items selected at dashboard_new.py line 55. -/
def balanceItems : List String := ["Total Assets", "Total Debt"]

/-- The income-statement line items selected at dashboard_new.py line 56. -/
def incomeItems : List String :=
  ["Total Revenue", "EBITDA", "Basic EPS", "Operating Income", "Operating Expense"]

/-- First row of a table with the given label, if present. -/
def findRow (rows : List (String × List ℚ)) (l : String) : Option (List ℚ) :=
  match rows with
  | [] => none
  | (k, v) :: rs => if l = k then some v else findRow rs l

/-- Column selection `t.T[labels]`: keeps the named line items, in the order
given; a label the table lacks raises `KeyError` (an `Except.error`). -/
def selectRows (t : FinTable) : List String → Except String (List (String × List ℚ))
  | [] => .ok []
  | l :: ls =>
    match findRow t.rows l with
    | none => .error ("KeyError: " ++ l)
    | some v => (selectRows t ls).map (fun rest => (l, v) :: rest)

/-- Value of a line item at period `p`, looked up positionally in the period
labels `ps` of the table the item came from. -/
def valAt : List String → List ℚ → String → Option ℚ
  | [], _, _ => none
  | _ :: _, [], _ => none
  | q :: ps, v :: vs, p => if p = q then some v else valAt ps vs p

/-- The join on the balance-sheet period index followed by the final `.T`
(dashboard_new.py lines 57-58): the snapshot keeps the balance-sheet periods
as columns; balance-sheet items take their own values, income-statement items
are aligned by period label, with `none` where the period is missing. -/
def joinT (p1 : List String) (r1 : List (String × List ℚ))
    (p2 : List String) (r2 : List (String × List ℚ)) : Snapshot :=
  ⟨p1,
   r1.map (fun r => (r.1, p1.map (fun p => valAt p1 r.2 p))) ++
   r2.map (fun r => (r.1, p1.map (fun p => valAt p2 r.2 p)))⟩

/-- The body of one attempt of `metrics_table_safe` past the provider calls
(dashboard_new.py lines 55-58): select the fixed line items from each table
(a missing item is a raised `KeyError`, the second selection is not evaluated
when the first raises), then join and transpose. -/
def metricsAttempt (d : FinData) : Except String Snapshot :=
  match selectRows d.balance_sheet balanceItems with
  | .error e => .error e
  | .ok r1 =>
    match selectRows d.financials incomeItems with
    | .error e => .error e
    | .ok r2 =>
      .ok (joinT d.balance_sheet.periods r1 d.financials.periods r2)

/-- The sentinel `pd.DataFrame()` returned on exhaustion. -/
def emptySnapshot : Snapshot := ⟨[], []⟩

/-- Embedding of `metrics_table_safe` (dashboard_new.py lines 48-63): each
attempt fetches both statement tables (`b i`; a raise is `Except.error`) and
then selects, joins and transposes; any failure warns and sleeps 60 seconds;
exhaustion returns an empty frame. -/
def metrics_table_safe (ticker : String)
    (b : Nat → Except String FinData) : Snapshot × List Ev :=
  retryFrom (fun i => (b i).bind metricsAttempt) id emptySnapshot
    (fun e => "Error fetching financial data for " ++ ticker ++ ": " ++ e ++
      ". Retrying in 60 seconds...")
    ("Could not fetch financial data for " ++ ticker ++ " after multiple attempts.") 0 5

/-- Modelled from the spec: the `st.cache_data` wrapper is Streamlit library
code, not part of the repository.  Spec §3/§4.2: entries are keyed by
(function identity, symbol argument) and hold the last result plus a creation
timestamp; an entry is invalid once its age exceeds the TTL or on explicit
manual invalidation. -/
structure GlobalCache (α : Type) where
  entries : List ((String × String) × (Nat × α))

/-- First cache entry with the given (function, symbol) key. -/
def findEntry {α : Type} (es : List ((String × String) × (Nat × α)))
    (k : String × String) : Option (Nat × α) :=
  match es with
  | [] => none
  | (k2, v) :: rest => if k = k2 then some v else findEntry rest k

/-- Modelled from the spec: one call of a cached fetch function at time `now`.
A stored entry whose age is within the TTL is a hit: its value is returned
without running `compute` (the provider is not contacted).  Otherwise
`compute` runs and the result is stored with timestamp `now`.  The third
component records whether the provider was invoked. -/
def cachedCall {α : Type} (g : GlobalCache α) (now ttl : Nat) (fnId : String)
    (compute : String → α) (sym : String) : α × GlobalCache α × Bool :=
  match findEntry g.entries (fnId, sym) with
  | some (t, v) =>
    if now - t ≤ ttl then (v, g, false)
    else (compute sym, ⟨((fnId, sym), (now, compute sym)) :: g.entries⟩, true)
  | none => (compute sym, ⟨((fnId, sym), (now, compute sym)) :: g.entries⟩, true)

/-- Modelled from the spec: `st.cache_data.clear()` (dashboard_new.py lines
75 and 96) drops every cached entry of every function and symbol. -/
def clearAll {α : Type} (_ : GlobalCache α) : GlobalCache α := ⟨[]⟩

/-- Observable events of one run of `display_stock_dashboard` that involve
the fetch layer or depend on its results. -/
inductive UIEv where
  | clearCacheClick
  | stockFetch : String → UIEv
  | metricsFetch : String → UIEv
  | warnNoData
  | renderData : String → Snapshot → UIEv
deriving DecidableEq

/-- Embedding of `display_stock_dashboard` (dashboard_new.py lines 89-116) at
the fetch-layer level: an optional cache clear when the retry button was
pressed, then the stock fetch, then the financial-snapshot fetch, and only
after both an emptiness check on the history that either warns and returns or
renders. -/
def display_stock_dashboard (selected : String) (button : Bool)
    (bS : Nat → Except String (List Row × Info))
    (bM : Nat → Except String FinData) : List UIEv :=
  (if button then [UIEv.clearCacheClick] else []) ++
  UIEv.stockFetch selected :: UIEv.metricsFetch selected ::
  (if (fetch_stock_data_safe selected bS).1.1 = [] then [UIEv.warnNoData]
   else [UIEv.renderData selected (metrics_table_safe selected bM).1])

/-! Helper lemmas about the retry skeleton and the table operations. -/

theorem retryFrom_fail {α β : Type} (attempt : Nat → Except String α) (onOk : α → β)
    (emp : β) (w : String → String) (f : String) :
    ∀ (r i : Nat), (∀ j, j < r → isErr (attempt (i + j)) = true) →
      (retryFrom attempt onOk emp w f i r).1 = emp ∧
        sleepCount (retryFrom attempt onOk emp w f i r).2 = r := by
  intro r
  induction r with
  | zero =>
    intro i _
    refine ⟨rfl, ?_⟩
    simp [retryFrom, sleepCount, is60Sleep]
  | succ r ih =>
    intro i h
    have h0 : isErr (attempt i) = true := by simpa using h 0 (Nat.succ_pos r)
    cases hatt : attempt i with
    | ok a => rw [hatt] at h0; simp [isErr] at h0
    | error e =>
      have hrest := ih (i + 1) (fun j hj => by
        have := h (j + 1) (Nat.succ_lt_succ hj)
        rwa [show i + (j + 1) = i + 1 + j by omega] at this)
      constructor
      · simp only [retryFrom, hatt]
        exact hrest.1
      · simp only [retryFrom, hatt, sleepCount, List.countP_cons, is60Sleep]
        have := hrest.2
        simp only [sleepCount] at this
        simp [this]

theorem retryFrom_success {α β : Type} (attempt : Nat → Except String α) (onOk : α → β)
    (emp : β) (w : String → String) (f : String) :
    ∀ (k r i : Nat) (a : α), k < r → (∀ j, j < k → isErr (attempt (i + j)) = true) →
      attempt (i + k) = .ok a →
      (retryFrom attempt onOk emp w f i r).1 = onOk a := by
  intro k
  induction k with
  | zero =>
    intro r i a hk _ hok
    obtain ⟨s, rfl⟩ : ∃ s, r = s + 1 := ⟨r - 1, by omega⟩
    rw [Nat.add_zero] at hok
    simp [retryFrom, hok]
  | succ k ih =>
    intro r i a hk hfail hok
    obtain ⟨s, rfl⟩ : ∃ s, r = s + 1 := ⟨r - 1, by omega⟩
    have h0 : isErr (attempt i) = true := by simpa using hfail 0 (Nat.succ_pos k)
    cases hatt : attempt i with
    | ok c => rw [hatt] at h0; simp [isErr] at h0
    | error e =>
      simp only [retryFrom, hatt]
      exact ih s (i + 1) a (by omega)
        (fun j hj => by
          have := hfail (j + 1) (Nat.succ_lt_succ hj)
          rwa [show i + (j + 1) = i + 1 + j by omega] at this)
        (by rwa [show i + 1 + k = i + (k + 1) by omega])

theorem retryFrom_cases {α β : Type} (attempt : Nat → Except String α) (onOk : α → β)
    (emp : β) (w : String → String) (f : String) :
    ∀ (r i : Nat), (retryFrom attempt onOk emp w f i r).1 = emp ∨
      ∃ k a, k < r ∧ attempt (i + k) = .ok a ∧
        (retryFrom attempt onOk emp w f i r).1 = onOk a := by
  intro r
  induction r with
  | zero => intro i; left; rfl
  | succ r ih =>
    intro i
    cases hatt : attempt i with
    | ok a =>
      right
      exact ⟨0, a, Nat.succ_pos r, by simpa using hatt, by simp [retryFrom, hatt]⟩
    | error e =>
      rcases ih (i + 1) with h | ⟨k, a, hk, hok, hres⟩
      · left
        simp only [retryFrom, hatt]
        exact h
      · right
        refine ⟨k + 1, a, Nat.succ_lt_succ hk,
          by rwa [show i + (k + 1) = i + 1 + k by omega], ?_⟩
        simp only [retryFrom, hatt]
        exact hres

theorem retryFrom_congr {α β : Type} (att1 att2 : Nat → Except String α) (onOk : α → β)
    (emp : β) (w : String → String) (f : String) :
    ∀ (r i : Nat), (∀ j, j < r → att1 (i + j) = att2 (i + j)) →
      retryFrom att1 onOk emp w f i r = retryFrom att2 onOk emp w f i r := by
  intro r
  induction r with
  | zero => intro i _; rfl
  | succ r ih =>
    intro i h
    have h0 : att1 i = att2 i := by simpa using h 0 (Nat.succ_pos r)
    have hrec := ih (i + 1) (fun j hj => by
      have := h (j + 1) (Nat.succ_lt_succ hj)
      rwa [show i + (j + 1) = i + 1 + j by omega] at this)
    cases hatt : att2 i with
    | ok a => simp [retryFrom, h0, hatt]
    | error e => simp [retryFrom, h0, hatt, hrec]

theorem selectRows_labels (t : FinTable) :
    ∀ (ls : List String) (rs : List (String × List ℚ)),
      selectRows t ls = .ok rs → rs.map Prod.fst = ls := by
  intro ls
  induction ls with
  | nil =>
    intro rs h
    simp only [selectRows] at h
    cases h
    rfl
  | cons l ls ih =>
    intro rs h
    simp only [selectRows] at h
    cases hf : findRow t.rows l with
    | none => rw [hf] at h; cases h
    | some v =>
      rw [hf] at h
      cases hs : selectRows t ls with
      | error e => rw [hs] at h; simp [Except.map] at h
      | ok rest =>
        rw [hs] at h
        simp only [Except.map, Except.ok.injEq] at h
        subst h
        simp [ih rest hs]

theorem selectRows_missing (t : FinTable) :
    ∀ (ls : List String) (l : String), l ∈ ls → findRow t.rows l = none →
      isErr (selectRows t ls) = true := by
  intro ls
  induction ls with
  | nil => intro l hl _; simp at hl
  | cons a ls ih =>
    intro l hl hnone
    rcases List.mem_cons.mp hl with rfl | hmem
    · simp [selectRows, hnone, isErr]
    · cases hf : findRow t.rows a with
      | none => simp [selectRows, hf, isErr]
      | some v =>
        have herr := ih l hmem hnone
        cases hs : selectRows t ls with
        | error e => simp [selectRows, hf, hs, Except.map, isErr]
        | ok rest => rw [hs] at herr; simp [isErr] at herr

theorem metricsAttempt_labels (d : FinData) (s : Snapshot)
    (h : metricsAttempt d = .ok s) :
    s.items.map Prod.fst = balanceItems ++ incomeItems := by
  unfold metricsAttempt at h
  cases h1 : selectRows d.balance_sheet balanceItems with
  | error e => rw [h1] at h; cases h
  | ok r1 =>
    rw [h1] at h
    cases h2 : selectRows d.financials incomeItems with
    | error e => rw [h2] at h; cases h
    | ok r2 =>
      rw [h2] at h
      simp only [Except.ok.injEq] at h
      subst h
      have e1 := selectRows_labels d.balance_sheet balanceItems r1 h1
      have e2 := selectRows_labels d.financials incomeItems r2 h2
      simp only [joinT, List.map_append, List.map_map]
      rw [show ((Prod.fst ∘ fun r : String × List ℚ =>
            (r.1, d.balance_sheet.periods.map (fun p => valAt d.balance_sheet.periods r.2 p))) =
          Prod.fst) from rfl,
        show ((Prod.fst ∘ fun r : String × List ℚ =>
            (r.1, d.balance_sheet.periods.map (fun p => valAt d.financials.periods r.2 p))) =
          Prod.fst) from rfl, e1, e2]

theorem metricsAttempt_missing (d : FinData) (l : String)
    (h : (l ∈ balanceItems ∧ findRow d.balance_sheet.rows l = none) ∨
         (l ∈ incomeItems ∧ findRow d.financials.rows l = none)) :
    isErr (metricsAttempt d) = true := by
  unfold metricsAttempt
  rcases h with ⟨hmem, hnone⟩ | ⟨hmem, hnone⟩
  · have herr := selectRows_missing d.balance_sheet balanceItems l hmem hnone
    cases hs : selectRows d.balance_sheet balanceItems with
    | error e => simp [isErr]
    | ok r => rw [hs] at herr; simp [isErr] at herr
  · cases hs : selectRows d.balance_sheet balanceItems with
    | error e => simp [isErr]
    | ok r1 =>
      have herr := selectRows_missing d.financials incomeItems l hmem hnone
      cases h2 : selectRows d.financials incomeItems with
      | error e => simp [isErr]
      | ok r2 => rw [h2] at herr; simp [isErr] at herr

theorem deriveIndex_length (hist : List Row) :
    (deriveIndex hist).length = hist.length := by
  simp [deriveIndex]

theorem deriveIndex_getElem (hist : List Row) (k : Nat) (hk : k < hist.length) :
    (deriveIndex hist)[k]? = some
      { base := hist.getD k ⟨0, 0, 0, 0, 0⟩
        SMA_20 :=
          if 20 ≤ k + 1 then some (mean (windowAt (hist.map Row.Close) k)) else none
        EMA_20 := some (emaVal (2 / 21) (hist.map Row.Close) k)
        Volatility :=
          if 20 ≤ k + 1 then some (sampleStd (windowAt (hist.map Row.Close) k)) else none } := by
  simp [deriveIndex, List.getElem?_range, hk]

theorem fetch_index_fail (tk : String) (b : Nat → Except String (List Row))
    (h : ∀ j, j < 5 → isErr (b j) = true) :
    (fetch_index_data_safe tk b).1 = [] ∧
      sleepCount (fetch_index_data_safe tk b).2 = 5 := by
  unfold fetch_index_data_safe
  exact retryFrom_fail _ _ _ _ _ 5 0 (fun j hj => by simpa using h j hj)

theorem fetch_stock_fail (tk : String) (b : Nat → Except String (List Row × Info))
    (h : ∀ j, j < 5 → isErr (b j) = true) :
    (fetch_stock_data_safe tk b).1 = ([], []) ∧
      sleepCount (fetch_stock_data_safe tk b).2 = 5 := by
  unfold fetch_stock_data_safe
  exact retryFrom_fail _ _ _ _ _ 5 0 (fun j hj => by simpa using h j hj)

theorem metrics_table_fail (tk : String) (b : Nat → Except String FinData)
    (h : ∀ j, j < 5 → isErr (b j) = true) :
    (metrics_table_safe tk b).1 = emptySnapshot ∧
      sleepCount (metrics_table_safe tk b).2 = 5 := by
  unfold metrics_table_safe
  refine retryFrom_fail _ _ _ _ _ 5 0 (fun j hj => ?_)
  have hbj := h j (by simpa using hj)
  cases hb : b (0 + j) with
  | error e => simp [isErr, Except.bind, hb]
  | ok d =>
    rw [show (0 : Nat) + j = j by omega] at hb
    rw [hb] at hbj
    simp [isErr] at hbj

theorem fetch_index_success (tk : String) (b : Nat → Except String (List Row))
    (i : Nat) (hist : List Row) (hi : i < 5)
    (hfail : ∀ j, j < i → isErr (b j) = true) (hok : b i = .ok hist) :
    (fetch_index_data_safe tk b).1 = deriveIndex hist := by
  unfold fetch_index_data_safe
  exact retryFrom_success _ _ _ _ _ i 5 0 hist hi
    (fun j hj => by simpa using hfail j hj) (by simpa using hok)

theorem fetch_stock_success (tk : String) (b : Nat → Except String (List Row × Info))
    (i : Nat) (hist : List Row) (info : Info) (hi : i < 5)
    (hfail : ∀ j, j < i → isErr (b j) = true) (hok : b i = .ok (hist, info)) :
    (fetch_stock_data_safe tk b).1 = (hist, mkMetrics info) := by
  unfold fetch_stock_data_safe
  exact retryFrom_success _ _ _ _ _ i 5 0 (hist, info) hi
    (fun j hj => by simpa using hfail j hj) (by simpa using hok)

theorem fetch_index_cases (tk : String) (b : Nat → Except String (List Row)) :
    (fetch_index_data_safe tk b).1 = [] ∨
      ∃ k hist, k < 5 ∧ b k = .ok hist ∧
        (fetch_index_data_safe tk b).1 = deriveIndex hist := by
  unfold fetch_index_data_safe
  rcases retryFrom_cases b deriveIndex []
      (fun e => "Error fetching " ++ tk ++ ": " ++ e ++ ". Retrying in 60 seconds...")
      ("Could not fetch data for " ++ tk ++ " after multiple attempts.") 5 0 with
    h | ⟨k, hist, hk, hok, hres⟩
  · left; exact h
  · right; exact ⟨k, hist, hk, by simpa using hok, hres⟩

theorem fetch_stock_cases (tk : String) (b : Nat → Except String (List Row × Info)) :
    (fetch_stock_data_safe tk b).1 = ([], []) ∨
      ∃ k p, k < 5 ∧ b k = .ok p ∧
        (fetch_stock_data_safe tk b).1 = (p.1, mkMetrics p.2) := by
  unfold fetch_stock_data_safe
  rcases retryFrom_cases b (fun p => (p.1, mkMetrics p.2)) ([], [])
      (fun e => "Error fetching " ++ tk ++ ": " ++ e ++ ". Retrying in 60 seconds...")
      ("Could not fetch data for " ++ tk ++ " after multiple attempts.") 5 0 with
    h | ⟨k, p, hk, hok, hres⟩
  · left; exact h
  · right; exact ⟨k, p, hk, by simpa using hok, hres⟩

theorem metrics_table_cases (tk : String) (b : Nat → Except String FinData) :
    (metrics_table_safe tk b).1 = emptySnapshot ∨
      ∃ k s, k < 5 ∧ (b k).bind metricsAttempt = .ok s ∧
        (metrics_table_safe tk b).1 = s := by
  unfold metrics_table_safe
  rcases retryFrom_cases (fun i => (b i).bind metricsAttempt) id emptySnapshot
      (fun e => "Error fetching financial data for " ++ tk ++ ": " ++ e ++
        ". Retrying in 60 seconds...")
      ("Could not fetch financial data for " ++ tk ++ " after multiple attempts.") 5 0 with
    h | ⟨k, s, hk, hok, hres⟩
  · left; exact h
  · right; exact ⟨k, s, hk, by simpa using hok, hres⟩

/-! Claim theorems. -/

/-- C1 counterexample: with a provider that fails all 5 attempts,
`fetch_index_data_safe` performs 5 sixty-second delays, not 4: the
`time.sleep(60)` in the `except` block runs after every failed attempt,
including the final one. -/
theorem C1_counterexample :
    sleepCount (fetch_index_data_safe "^GSPC" (fun _ => Except.error "HTTPError")).2 = 5 ∧
      sleepCount (fetch_index_data_safe "^GSPC" (fun _ => Except.error "HTTPError")).2 ≠ 4 := by
  have h : sleepCount (fetch_index_data_safe "^GSPC" (fun _ => Except.error "HTTPError")).2 = 5 :=
    rfl
  exact ⟨h, by rw [h]; decide⟩

/-- C1 (amended): for every symbol, when the provider fails on all 5 attempts,
each fetch function (fetch_index_data_safe, fetch_stock_data_safe,
metrics_table_safe) returns an explicitly empty series/mapping and performs
exactly 5 fixed 60-second delays, one after every failed attempt including
the final one. -/
theorem C1_amended_five_delays (tk : String)
    (bI : Nat → Except String (List Row))
    (bS : Nat → Except String (List Row × Info))
    (bM : Nat → Except String FinData)
    (hI : ∀ j, j < 5 → isErr (bI j) = true)
    (hS : ∀ j, j < 5 → isErr (bS j) = true)
    (hM : ∀ j, j < 5 → isErr (bM j) = true) :
    ((fetch_index_data_safe tk bI).1 = [] ∧
      sleepCount (fetch_index_data_safe tk bI).2 = 5) ∧
    ((fetch_stock_data_safe tk bS).1 = ([], []) ∧
      sleepCount (fetch_stock_data_safe tk bS).2 = 5) ∧
    ((metrics_table_safe tk bM).1 = emptySnapshot ∧
      sleepCount (metrics_table_safe tk bM).2 = 5) :=
  ⟨fetch_index_fail tk bI hI, fetch_stock_fail tk bS hS, metrics_table_fail tk bM hM⟩

/-- C1 witness: the amended claim at a concrete always-failing provider. -/
theorem C1_amended_witness :
    ((fetch_index_data_safe "^DJI" (fun _ => Except.error "boom")).1 = [] ∧
      sleepCount (fetch_index_data_safe "^DJI" (fun _ => Except.error "boom")).2 = 5) ∧
    ((fetch_stock_data_safe "^DJI" (fun _ => Except.error "boom")).1 = ([], []) ∧
      sleepCount (fetch_stock_data_safe "^DJI" (fun _ => Except.error "boom")).2 = 5) ∧
    ((metrics_table_safe "^DJI" (fun _ => Except.error "boom")).1 = emptySnapshot ∧
      sleepCount (metrics_table_safe "^DJI" (fun _ => Except.error "boom")).2 = 5) :=
  C1_amended_five_delays "^DJI" _ _ _ (fun _ _ => rfl) (fun _ _ => rfl) (fun _ _ => rfl)

/-- C2: no provider exception escapes the fetch layer: on every behaviour the
result of each fetch function is either its explicitly empty sentinel or the
post-processed data of a successful attempt (so every attempt failure is
caught), and when all 5 attempts fail the sentinel is returned. -/
theorem C2_no_exception_escapes (tk : String)
    (bI : Nat → Except String (List Row))
    (bS : Nat → Except String (List Row × Info))
    (bM : Nat → Except String FinData) :
    (((∀ j, j < 5 → isErr (bI j) = true) → (fetch_index_data_safe tk bI).1 = []) ∧
      ((fetch_index_data_safe tk bI).1 = [] ∨
        ∃ k hist, k < 5 ∧ bI k = .ok hist ∧
          (fetch_index_data_safe tk bI).1 = deriveIndex hist)) ∧
    (((∀ j, j < 5 → isErr (bS j) = true) → (fetch_stock_data_safe tk bS).1 = ([], [])) ∧
      ((fetch_stock_data_safe tk bS).1 = ([], []) ∨
        ∃ k p, k < 5 ∧ bS k = .ok p ∧
          (fetch_stock_data_safe tk bS).1 = (p.1, mkMetrics p.2))) ∧
    (((∀ j, j < 5 → isErr (bM j) = true) → (metrics_table_safe tk bM).1 = emptySnapshot) ∧
      ((metrics_table_safe tk bM).1 = emptySnapshot ∨
        ∃ k s, k < 5 ∧ (bM k).bind metricsAttempt = .ok s ∧
          (metrics_table_safe tk bM).1 = s)) :=
  ⟨⟨fun h => (fetch_index_fail tk bI h).1, fetch_index_cases tk bI⟩,
   ⟨fun h => (fetch_stock_fail tk bS h).1, fetch_stock_cases tk bS⟩,
   ⟨fun h => (metrics_table_fail tk bM h).1, metrics_table_cases tk bM⟩⟩

/-- C2 witness: the exhaustion branch of C2 at a concrete always-failing
provider: all three functions return their empty sentinels. -/
theorem C2_witness :
    (fetch_index_data_safe "AAPL" (fun _ => Except.error "rate limited")).1 = [] ∧
    (fetch_stock_data_safe "AAPL" (fun _ => Except.error "rate limited")).1 = ([], []) ∧
    (metrics_table_safe "AAPL" (fun _ => Except.error "rate limited")).1 = emptySnapshot :=
  ⟨(C2_no_exception_escapes "AAPL" (fun _ => Except.error "rate limited")
      (fun _ => Except.error "rate limited") (fun _ => Except.error "rate limited")).1.1
    (fun _ _ => rfl),
   (C2_no_exception_escapes "AAPL" (fun _ => Except.error "rate limited")
      (fun _ => Except.error "rate limited") (fun _ => Except.error "rate limited")).2.1.1
    (fun _ _ => rfl),
   (C2_no_exception_escapes "AAPL" (fun _ => Except.error "rate limited")
      (fun _ => Except.error "rate limited") (fun _ => Except.error "rate limited")).2.2.1
    (fun _ _ => rfl)⟩

/-- C5 counterexample: the claim fails for EMA_20: on a successfully fetched
one-row series the EMA_20 entry of row 0 (one of the first 19 rows) is
defined (`ewm(span=20, adjust=False).mean()` is defined from the very first
row), not absent. -/
theorem C5_counterexample :
    ((fetch_index_data_safe "^GSPC"
          (fun _ => Except.ok [⟨1, 1, 1, 1, 1⟩])).1.map IndexRow.EMA_20).head? =
        some (some 1) ∧
      some (1 : ℚ) ≠ (none : Option ℚ) := by
  exact ⟨rfl, by simp⟩

/-- C5 (amended): on every series successfully returned by
`fetch_index_data_safe`, SMA_20 and Volatility are undefined (`none`) on each
of the first 19 rows, while EMA_20 is defined there. -/
theorem C5_amended_sma_vol_undefined (tk : String) (b : Nat → Except String (List Row))
    (i : Nat) (hist : List Row) (hi : i < 5)
    (hfail : ∀ j, j < i → isErr (b j) = true) (hok : b i = .ok hist)
    (k : Nat) (hk : k < 19) (row : IndexRow)
    (hrow : (fetch_index_data_safe tk b).1[k]? = some row) :
    row.SMA_20 = none ∧ row.Volatility = none ∧ row.EMA_20.isSome = true := by
  rw [fetch_index_success tk b i hist hi hfail hok] at hrow
  have hlen : k < hist.length := by
    by_contra hcon
    rw [List.getElem?_eq_none (by rw [deriveIndex_length]; omega)] at hrow
    exact Option.noConfusion hrow
  rw [deriveIndex_getElem hist k hlen] at hrow
  injection hrow with hrow
  subst hrow
  refine ⟨?_, ?_, ?_⟩
  · exact if_neg (by omega)
  · exact if_neg (by omega)
  · rfl

/-- C5 witness: the amended claim at a concrete one-row series, row 0. -/
theorem C5_amended_witness :
    (⟨⟨1, 1, 1, 1, 1⟩, none, some 1, none⟩ : IndexRow).SMA_20 = none ∧
    (⟨⟨1, 1, 1, 1, 1⟩, none, some 1, none⟩ : IndexRow).Volatility = none ∧
    (⟨⟨1, 1, 1, 1, 1⟩, none, some 1, none⟩ : IndexRow).EMA_20.isSome = true :=
  C5_amended_sma_vol_undefined "^GSPC" (fun _ => Except.ok [⟨1, 1, 1, 1, 1⟩])
    0 [⟨1, 1, 1, 1, 1⟩] (by omega) (fun j hj => absurd hj (Nat.not_lt_zero j)) rfl
    0 (by omega) _ rfl

/-- C3: cache idempotence, against the spec-modelled cache (the
`st.cache_data` wrapper is Streamlit library code): two sequential calls of
the same cached function for the same symbol at most 3600 seconds apart, with
no invalidation in between, run the provider at most once, and both calls
return the same result.  The hypothesis `hwf` says the starting cache holds
the computed value under this key, the invariant every `cachedCall` store
maintains. -/
theorem C3_cache_idempotent (α : Type) (g : GlobalCache α) (fnId sym : String)
    (compute : String → α) (now1 now2 : Nat)
    (hwf : ∀ t v, findEntry g.entries (fnId, sym) = some (t, v) → v = compute sym)
    (_h12 : now1 ≤ now2) (httl : now2 - now1 ≤ 3600) :
    (cachedCall g now1 3600 fnId compute sym).1 =
      (cachedCall (cachedCall g now1 3600 fnId compute sym).2.1
        now2 3600 fnId compute sym).1 ∧
    (cachedCall g now1 3600 fnId compute sym).2.2.toNat +
      (cachedCall (cachedCall g now1 3600 fnId compute sym).2.1
        now2 3600 fnId compute sym).2.2.toNat ≤ 1 := by
  cases hl : findEntry g.entries (fnId, sym) with
  | none =>
    simp [cachedCall, hl, findEntry, httl]
  | some e =>
    obtain ⟨t, v⟩ := e
    have hv : v = compute sym := hwf t v hl
    by_cases h1 : now1 - t ≤ 3600
    · by_cases h2 : now2 - t ≤ 3600
      · simp [cachedCall, hl, h1, h2]
      · simp [cachedCall, hl, h1, h2, hv]
    · simp [cachedCall, hl, h1, findEntry, httl]

/-- C3 witness: the idempotence theorem at a concrete empty cache, a concrete
compute function, and two call times 100 seconds apart. -/
theorem C3_witness :
    (cachedCall (⟨[]⟩ : GlobalCache Nat) 0 3600 "fetch_index_data_safe"
        (fun _ => 7) "^GSPC").1 =
      (cachedCall (cachedCall (⟨[]⟩ : GlobalCache Nat) 0 3600 "fetch_index_data_safe"
          (fun _ => 7) "^GSPC").2.1 100 3600 "fetch_index_data_safe"
        (fun _ => 7) "^GSPC").1 ∧
    (cachedCall (⟨[]⟩ : GlobalCache Nat) 0 3600 "fetch_index_data_safe"
        (fun _ => 7) "^GSPC").2.2.toNat +
      (cachedCall (cachedCall (⟨[]⟩ : GlobalCache Nat) 0 3600 "fetch_index_data_safe"
          (fun _ => 7) "^GSPC").2.1 100 3600 "fetch_index_data_safe"
        (fun _ => 7) "^GSPC").2.2.toNat ≤ 1 :=
  C3_cache_idempotent Nat ⟨[]⟩ "fetch_index_data_safe" "^GSPC" (fun _ => 7) 0 100
    (fun t v h => by simp [findEntry] at h) (by omega) (by omega)

/-- C4 counterexample: when all 5 attempts fail, `fetch_stock_data_safe`
returns the empty mapping `{}` (dashboard_new.py line 45), which contains
none of the four expected keys — 'PE Ratio' in particular is absent. -/
theorem C4_counterexample :
    (fetch_stock_data_safe "AAPL" (fun _ => Except.error "HTTPError")).1.2 = [] ∧
      getMetric (fetch_stock_data_safe "AAPL"
        (fun _ => Except.error "HTTPError")).1.2 "PE Ratio" = none :=
  ⟨rfl, rfl⟩

/-- C4 (amended): the metrics mapping returned by `fetch_stock_data_safe` is
either the empty mapping (after failure of all 5 attempts) or contains
exactly the four expected keys 'PE Ratio', 'Dividend Yield', 'Beta',
'Market Cap'; and in the latter mapping every value the provider did not
supply is the sentinel 'N/A'. -/
theorem C4_amended_schema (tk : String) (b : Nat → Except String (List Row × Info)) :
    ((fetch_stock_data_safe tk b).1.2 = [] ∨
      (fetch_stock_data_safe tk b).1.2.map Prod.fst =
        ["PE Ratio", "Dividend Yield", "Beta", "Market Cap"]) ∧
    (∀ info : Info,
      (info.trailingPE = none →
        getMetric (mkMetrics info) "PE Ratio" = some (MetricVal.str "N/A")) ∧
      (info.dividendYield = none →
        getMetric (mkMetrics info) "Dividend Yield" = some (MetricVal.str "N/A")) ∧
      (info.beta = none →
        getMetric (mkMetrics info) "Beta" = some (MetricVal.str "N/A")) ∧
      (info.marketCap = none →
        getMetric (mkMetrics info) "Market Cap" = some (MetricVal.str "N/A"))) := by
  constructor
  · rcases fetch_stock_cases tk b with h | ⟨k, p, hk, hok, hres⟩
    · left; rw [h]
    · right; rw [hres]; rfl
  · intro info
    refine ⟨fun h => ?_, fun h => ?_, fun h => ?_, fun h => ?_⟩ <;>
      simp [mkMetrics, getMetric, naOr, dividendYieldStr, h]

/-- C4 witness: the amended claim at a provider that succeeds with an info
mapping supplying none of the four fields: the key is present with the
sentinel. -/
theorem C4_amended_witness :
    getMetric (mkMetrics ⟨none, none, none, none⟩) "PE Ratio" =
      some (MetricVal.str "N/A") :=
  ((C4_amended_schema "MSFT" (fun _ => Except.ok ([], ⟨none, none, none, none⟩))).2
    ⟨none, none, none, none⟩).1 rfl

/-- C6: dividend-yield formatting on a successful `fetch_stock_data_safe`
call: a non-zero raw fraction y is rendered as y*100 with exactly two decimal
places followed by '%', a missing or zero raw value as the sentinel 'N/A';
in particular 0.0123 renders as '1.23%'. -/
theorem C6_dividend_yield_format (tk : String)
    (b : Nat → Except String (List Row × Info)) (i : Nat) (hist : List Row)
    (info : Info) (hi : i < 5) (hfail : ∀ j, j < i → isErr (b j) = true)
    (hok : b i = .ok (hist, info)) :
    (∀ y : ℚ, info.dividendYield = some y → y ≠ 0 →
      getMetric (fetch_stock_data_safe tk b).1.2 "Dividend Yield" =
        some (MetricVal.str (formatTwoDec (y * 100) ++ "%"))) ∧
    ((info.dividendYield = none ∨ info.dividendYield = some 0) →
      getMetric (fetch_stock_data_safe tk b).1.2 "Dividend Yield" =
        some (MetricVal.str "N/A")) ∧
    formatTwoDec ((123 : ℚ) / 10000 * 100) = "1.23" := by
  have hres := fetch_stock_success tk b i hist info hi hfail hok
  have hfmt : formatTwoDec ((123 : ℚ) / 10000 * 100) = "1.23" := by
    have h : rhe (((123 : ℚ) / 10000 * 100) * 100) = 123 := by
      unfold rhe
      norm_num
    simp only [formatTwoDec]
    rw [h]
    rfl
  refine ⟨fun y hy hy0 => ?_, fun h => ?_, hfmt⟩
  · rw [hres]
    simp [mkMetrics, getMetric, dividendYieldStr, hy, hy0]
  · rw [hres]
    rcases h with h | h <;> simp [mkMetrics, getMetric, dividendYieldStr, h]

/-- C6 witness: a provider supplying the raw dividend yield 0.0123 yields the
entry '1.23%'. -/
theorem C6_witness :
    getMetric (fetch_stock_data_safe "AAPL"
        (fun _ => Except.ok (([] : List Row),
          ⟨none, some ((123 : ℚ) / 10000), none, none⟩))).1.2 "Dividend Yield" =
      some (MetricVal.str "1.23%") := by
  have h := C6_dividend_yield_format "AAPL"
    (fun _ => Except.ok (([] : List Row), ⟨none, some ((123 : ℚ) / 10000), none, none⟩))
    0 [] ⟨none, some ((123 : ℚ) / 10000), none, none⟩ (by omega)
    (fun j hj => absurd hj (Nat.not_lt_zero j)) rfl
  have h1 := h.1 ((123 : ℚ) / 10000) rfl (by norm_num)
  rw [h1, h.2.2]
  rfl

/-- C7: manual invalidation, against the spec-modelled cache: the retry
button's `st.cache_data.clear()` empties the entire cache — every entry of
every fetch function and every symbol — and the next cached call for any
symbol runs the provider again. -/
theorem C7_clear_is_global (α : Type) (g : GlobalCache α) (now ttl : Nat)
    (fnId sym : String) (compute : String → α) :
    (clearAll g).entries = [] ∧
    (cachedCall (clearAll g) now ttl fnId compute sym).2.2 = true ∧
    (cachedCall (clearAll g) now ttl fnId compute sym).1 = compute sym := by
  refine ⟨rfl, ?_, ?_⟩ <;> simp [cachedCall, clearAll, findEntry]

/-- C8: a selected line item the provider omits makes the whole attempt of
`metrics_table_safe` fail (propagating as a retry-triggering error), and the
function never returns a partial snapshot: its result is either the empty
sentinel or a snapshot carrying every one of the seven selected line items
(Total Assets, Total Debt, Total Revenue, EBITDA, Basic EPS, Operating
Income, Operating Expense). -/
theorem C8_no_partial_snapshot (tk : String) (b : Nat → Except String FinData) :
    (∀ (d : FinData) (l : String),
      ((l ∈ balanceItems ∧ findRow d.balance_sheet.rows l = none) ∨
       (l ∈ incomeItems ∧ findRow d.financials.rows l = none)) →
      isErr (metricsAttempt d) = true) ∧
    ((metrics_table_safe tk b).1 = emptySnapshot ∨
      (metrics_table_safe tk b).1.items.map Prod.fst = balanceItems ++ incomeItems) := by
  constructor
  · exact fun d l h => metricsAttempt_missing d l h
  · rcases metrics_table_cases tk b with h | ⟨k, s, hk, hok, hres⟩
    · left; exact h
    · right
      rw [hres]
      cases hb : b k with
      | error e => rw [hb] at hok; simp [Except.bind] at hok
      | ok d =>
        rw [hb] at hok
        simp only [Except.bind] at hok
        exact metricsAttempt_labels d s hok

/-- C8 witness: a balance sheet that supplies Total Assets but omits Total
Debt makes the attempt fail. -/
theorem C8_witness :
    isErr (metricsAttempt ⟨⟨[], []⟩, ⟨["2024"], [("Total Assets", [1])]⟩⟩) = true :=
  (C8_no_partial_snapshot "AAPL" (fun _ => Except.error "boom")).1
    ⟨⟨[], []⟩, ⟨["2024"], [("Total Assets", [1])]⟩⟩ "Total Debt"
    (Or.inl ⟨by simp [balanceItems], rfl⟩)

/-- C9: each fetch function is deterministic with respect to the provider:
two behaviours that agree on every attempt that can run (the first five) give
equal results, event traces included; in particular two runs against the same
behaviour return equal results. -/
theorem C9_deterministic (tk : String)
    (bI1 bI2 : Nat → Except String (List Row))
    (bS1 bS2 : Nat → Except String (List Row × Info))
    (bM1 bM2 : Nat → Except String FinData)
    (hI : ∀ j, j < 5 → bI1 j = bI2 j)
    (hS : ∀ j, j < 5 → bS1 j = bS2 j)
    (hM : ∀ j, j < 5 → bM1 j = bM2 j) :
    fetch_index_data_safe tk bI1 = fetch_index_data_safe tk bI2 ∧
    fetch_stock_data_safe tk bS1 = fetch_stock_data_safe tk bS2 ∧
    metrics_table_safe tk bM1 = metrics_table_safe tk bM2 := by
  refine ⟨?_, ?_, ?_⟩
  · unfold fetch_index_data_safe
    exact retryFrom_congr _ _ _ _ _ _ 5 0 (fun j hj => by
      rw [Nat.zero_add]
      exact hI j (by simpa using hj))
  · unfold fetch_stock_data_safe
    exact retryFrom_congr _ _ _ _ _ _ 5 0 (fun j hj => by
      rw [Nat.zero_add]
      exact hS j (by simpa using hj))
  · unfold metrics_table_safe
    exact retryFrom_congr _ _ _ _ _ _ 5 0 (fun j hj => by
      rw [Nat.zero_add]
      rw [hM j (by simpa using hj)])

/-- C9 witness: determinism at concrete behaviour pairs that agree on the
five attempts that can run and differ from attempt 5 on. -/
theorem C9_witness :
    fetch_index_data_safe "AAPL" (fun _ => Except.error "e") =
      fetch_index_data_safe "AAPL"
        (fun i => if i < 5 then Except.error "e" else Except.ok []) ∧
    fetch_stock_data_safe "AAPL" (fun _ => Except.error "e") =
      fetch_stock_data_safe "AAPL"
        (fun i => if i < 5 then Except.error "e"
          else Except.ok ([], ⟨none, none, none, none⟩)) ∧
    metrics_table_safe "AAPL" (fun _ => Except.error "e") =
      metrics_table_safe "AAPL"
        (fun i => if i < 5 then Except.error "e"
          else Except.ok ⟨⟨[], []⟩, ⟨[], []⟩⟩) :=
  C9_deterministic "AAPL" _ _ _ _ _ _
    (fun j hj => by simp [hj])
    (fun j hj => by simp [hj])
    (fun j hj => by simp [hj])

/-- C10: every run of `display_stock_dashboard` performs the
financial-snapshot fetch exactly once for the selected symbol, right after
the stock-history fetch and before the emptiness branch, for every provider
behaviour — in particular also when the stock history comes back empty. -/
theorem C10_metrics_fetch_once (selected : String) (button : Bool)
    (bS : Nat → Except String (List Row × Info))
    (bM : Nat → Except String FinData) :
    (display_stock_dashboard selected button bS bM).count (UIEv.metricsFetch selected) = 1 ∧
    display_stock_dashboard selected button bS bM =
      (if button then [UIEv.clearCacheClick] else []) ++
      UIEv.stockFetch selected :: UIEv.metricsFetch selected ::
      (if (fetch_stock_data_safe selected bS).1.1 = [] then [UIEv.warnNoData]
       else [UIEv.renderData selected (metrics_table_safe selected bM).1]) := by
  refine ⟨?_, rfl⟩
  unfold display_stock_dashboard
  by_cases hb : button <;>
    by_cases he : (fetch_stock_data_safe selected bS).1.1 = [] <;>
      simp [hb, he, List.count_cons, List.count_append]

end Dash
